import Mathlib

/-!
Shallow embedding of the element geometry and transformation engine of
`src/elements.js` (DrawOnYourScreen2).

Modelling conventions:
* JavaScript numbers are modelled as real numbers.
* JavaScript's `delete obj.field` (used for the transient gesture fields
  `startX`, `startY`, `endX`, `endY`) is modelled by `Option ℝ` fields; a
  committed record has `none` there.  The updating code reads these fields
  with `Option.getD 0`; in every state the source can reach between
  `startTransformation` and `stopTransformation` the fields are present, so
  the default is never consulted.
* The one spot where an IEEE special value can reach a stored field — the
  `scale = num / den || 1` guard of the ScalePreserve and Stretch updates,
  where `num / 0 = +Infinity` for `num > 0` is truthy and therefore kept —
  is modelled explicitly by the `JSNum` type for the stored scale factors.
* The lazily cached values of the source (`_originalCenter`,
  `elementTransformedCenter`) are replaced by pure recomputation, which
  produces the same values because the cached inputs are not mutated
  between cache fill and cache use on the code paths modelled here.
-/

noncomputable section

open Classical

/-! ### Enumerations and constants (elements.js lines 37-58) -/

namespace Shapes

def NONE : ℕ := 0

def LINE : ℕ := 1

def ELLIPSE : ℕ := 2

def RECTANGLE : ℕ := 3

def TEXT : ℕ := 4

def POLYGON : ℕ := 5

def POLYLINE : ℕ := 6

end Shapes

namespace Transformations

def TRANSLATION : ℕ := 0

def ROTATION : ℕ := 1

def SCALE_PRESERVE : ℕ := 2

def STRETCH : ℕ := 3

def REFLECTION : ℕ := 4

def INVERSION : ℕ := 5

end Transformations

def RADIAN : ℝ := 180 / Real.pi

def INVERSION_CIRCLE_RADIUS : ℝ := 12

def REFLECTION_TOLERANCE : ℝ := 5

def STRETCH_TOLERANCE : ℝ := Real.pi / 8

def MIN_REFLECTION_LINE_LENGTH : ℝ := 10

def MIN_TRANSLATION_DISTANCE : ℝ := 1

def MIN_ROTATION_ANGLE : ℝ := Real.pi / 1000

def MIN_DRAWING_SIZE : ℝ := 3

/-! ### JavaScript numbers that can be `+Infinity` -/

/-- A JavaScript number as it can appear in a stored scale factor: either a
finite real, or `+Infinity` (the result of `p / 0` with `p > 0`). -/
inductive JSNum where
  | fin (x : ℝ)
  | inf

/-- Read a scale field back as a real.  The center-matrix code only ever
reads the scales of Reflection and Inversion records, which are `±1` by
construction, so the junk value for `inf` is never consulted there. -/
def JSNum.toReal : JSNum → ℝ
  | .fin x => x
  | .inf => 0

/-! ### Geometric utilities (elements.js lines 662-746) -/

/-- `Math.hypot(a, b)`. -/
def jsHypot (a b : ℝ) : ℝ := Real.sqrt (a ^ 2 + b ^ 2)

/-- JavaScript `v || 1` on a number: `0` is falsy and replaced by `1`. -/
def jsOr1 (v : ℝ) : ℝ := if v = 0 then 1 else v

/-- JavaScript `num / den || 1` for `num, den ≥ 0` (both arguments are
`Math.hypot` values in the source): `0 / 0` is `NaN` (falsy, replaced by
`1`), a zero quotient is falsy (replaced by `1`), `num / 0` with `num > 0`
is `+Infinity`, which is truthy and kept. -/
def jsDivOr1 (num den : ℝ) : JSNum :=
  if den = 0 then (if num = 0 then .fin 1 else .inf)
  else if num / den = 0 then .fin 1 else .fin (num / den)

/-- `getNearness(pointA, pointB, distance)`: strict Euclidean proximity. -/
def getNearness (pointA pointB : ℝ × ℝ) (distance : ℝ) : Prop :=
  jsHypot (pointB.1 - pointA.1) (pointB.2 - pointA.2) < distance

/-- `getNaiveCenter(points)`: `points.reduce(...)` with no initial value
starts from the first element; the sums are then divided by the length.
The source throws on an empty array; the embedding returns a junk value
there, and every use below is guarded by non-emptiness. -/
def getNaiveCenter (points : List (ℝ × ℝ)) : ℝ × ℝ :=
  match points with
  | [] => (0, 0)
  | p :: ps =>
    let s := ps.foldl (fun acc q => (acc.1 + q.1, acc.2 + q.2)) p
    let n : ℝ := (ps.length + 1 : ℕ)
    (s.1 / n, s.2 / n)

/-- `getCentroid(points)` (shoelace centroid): the source temporarily
pushes a copy of the first point, accumulates the shoelace sums, pops the
copy again, and falls back to `getNaiveCenter` on a zero signed area.  The
JavaScript function mutates its argument array in place; the embedding
returns the final state of the array alongside the centroid. -/
def getCentroid (points : List (ℝ × ℝ)) : List (ℝ × ℝ) × (ℝ × ℝ) :=
  let n := points.length
  let pushed := points ++ [points.getD 0 (0, 0)]
  let sums := (List.range n).foldl
    (fun (acc : ℝ × ℝ × ℝ) i =>
      let pA := pushed.getD i (0, 0)
      let pB := pushed.getD (i + 1) (0, 0)
      let a := pA.1 * pB.2 - pB.1 * pA.2
      (acc.1 + a, acc.2.1 + (pA.1 + pB.1) * a, acc.2.2 + (pA.2 + pB.2) * a))
    (0, 0, 0)
  let popped := pushed.dropLast
  if sums.1 = 0 then (popped, getNaiveCenter popped)
  else (popped, (sums.2.1 / (3 * sums.1), sums.2.2 / (3 * sums.1)))

/-- `cubicBezierCoord` (spelled out in the source's comment block,
elements.js lines 697-699). -/
def cubicBezierCoord (x0 x1 x2 x3 t : ℝ) : ℝ :=
  (1 - t) ^ 3 * x0 + 3 * t * (1 - t) ^ 2 * x1 + 3 * t ^ 2 * (1 - t) * x2 + t ^ 3 * x3

/-- `cubicBezierPoint` (elements.js lines 701-703). -/
def cubicBezierPoint (p0 p1 p2 p3 : ℝ × ℝ) (t : ℝ) : ℝ × ℝ :=
  (cubicBezierCoord p0.1 p1.1 p2.1 p3.1 t, cubicBezierCoord p0.2 p1.2 p2.2 p3.2 t)

/-- `getCurveCenter(p0, p1, p2, p3)` (elements.js lines 712-719). -/
def getCurveCenter (p0 p1 p2 p3 : ℝ × ℝ) : ℝ × ℝ :=
  if p0.1 = p1.1 ∧ p0.2 = p1.2 then
    ((p1.1 + 6 * p1.1 + 12 * p2.1 + 8 * p3.1) / 27,
     (p1.2 + 6 * p1.2 + 12 * p2.2 + 8 * p3.2) / 27)
  else
    ((p0.1 + 3 * p1.1 + 3 * p2.1 + p3.1) / 8,
     (p0.2 + 3 * p1.2 + 3 * p2.2 + p3.2) / 8)

/-- `getAngle(xO, yO, xA, yA, xB, yB)` (elements.js lines 721-746): the
dot-product cosine, clamped to `[-1, 1]`, fed to `acos`, then
sign-corrected. -/
def getAngle (xO yO xA yA xB yB : ℝ) : ℝ :=
  let cos0 := ((xA - xO) * (xB - xO) + (yA - yO) * (yB - yO)) /
    (jsHypot (xA - xO) (yA - yO) * jsHypot (xB - xO) (yB - yO))
  let cos1 := min (max (-1) cos0) 1
  let angle := Real.arccos cos1
  if xA = xO then
    if xB > xO then -angle else angle
  else
    let a := (yA - yO) / (xA - xO)
    let b := yA - a * xA
    let angle1 := if yB < a * xB + b then -angle else angle
    if xA < xO then -angle1 else angle1

/-! ### `Pango.Matrix` (used by `_getTransformedCenter`) -/

/-- `Pango.Matrix`: the affine map `x' = xx*x + xy*y + x0`,
`y' = yx*x + yy*y + y0`. -/
structure Mat where
  xx : ℝ
  xy : ℝ
  yx : ℝ
  yy : ℝ
  x0 : ℝ
  y0 : ℝ

/-- `new Pango.Matrix({xx: 1, xy: 0, yx: 0, yy: 1, x0: 0, y0: 0})`. -/
def Mat.identityMat : Mat := ⟨1, 0, 0, 1, 0, 0⟩

/-- `pango_matrix_concat m n`: first apply `n`, then `m`. -/
def Mat.concat (m n : Mat) : Mat :=
  ⟨m.xx * n.xx + m.xy * n.yx, m.xx * n.xy + m.xy * n.yy,
   m.yx * n.xx + m.yy * n.yx, m.yx * n.xy + m.yy * n.yy,
   m.xx * n.x0 + m.xy * n.y0 + m.x0, m.yx * n.x0 + m.yy * n.y0 + m.y0⟩

/-- `pango_matrix_translate`. -/
def Mat.translate (m : Mat) (tx ty : ℝ) : Mat := m.concat ⟨1, 0, 0, 1, tx, ty⟩

/-- `pango_matrix_scale`. -/
def Mat.scale (m : Mat) (sx sy : ℝ) : Mat := m.concat ⟨sx, 0, 0, sy, 0, 0⟩

/-- `pango_matrix_rotate` (argument in degrees). -/
def Mat.rotateDeg (m : Mat) (degrees : ℝ) : Mat :=
  let s := Real.sin (degrees / 180 * Real.pi)
  let c := Real.cos (degrees / 180 * Real.pi)
  m.concat ⟨c, s, -s, c, 0, 0⟩

/-- `pango_matrix_transform_point`. -/
def Mat.transformPoint (m : Mat) (x y : ℝ) : ℝ × ℝ :=
  (m.xx * x + m.xy * y + m.x0, m.yx * x + m.yy * y + m.y0)

/-! ### Data model -/

/-- Font descriptor (the `font` field of an element). -/
structure Font where
  family : String := ""
  weight : ℕ := 400
  style : ℕ := 0
  stretch : ℕ := 0
  variant : ℕ := 0

/-- The `line` style record. -/
structure LineStyle where
  lineWidth : ℝ := 0
  lineCap : ℕ := 0
  lineJoin : ℕ := 0

/-- The `dash` style record. -/
structure DashStyle where
  active : Bool := false
  array : List ℝ := []
  offset : ℝ := 0

/-- One transformation record.  The source stores a plain object whose
field set depends on the variant; here every record carries all fields,
with neutral defaults for the ones a variant does not use.  `ttype` is the
source's `type` field.  The transient gesture fields are `Option`s because
`stopTransformation` deletes them on commit. -/
structure Transfo where
  ttype : ℕ
  startX : Option ℝ := none
  startY : Option ℝ := none
  endX : Option ℝ := none
  endY : Option ℝ := none
  slideX : ℝ := 0
  slideY : ℝ := 0
  angle : ℝ := 0
  scaleX : JSNum := .fin 1
  scaleY : JSNum := .fin 1

/-- The legacy combined `transform` field of records written by old
extension versions (consumed and discarded by `_init`).  `ratioV` is the
source's `ratio` field. -/
structure Legacy where
  center : Option (ℝ × ℝ) := none
  angle : Option ℝ := none
  startAngle : Option ℝ := none
  ratioV : Option ℝ := none

/-- A `DrawingElement` after construction. -/
structure Element where
  shape : ℕ := Shapes.NONE
  color : String := ""
  line : LineStyle := {}
  dash : DashStyle := {}
  fill : Bool := false
  fillRule : ℕ := 0
  eraser : Bool := false
  transformations : List Transfo := []
  text : String := ""
  lineIndex : Option ℕ := none
  textRightAligned : Bool := false
  font : Option Font := none
  points : List (ℝ × ℝ) := []
  textWidth : ℝ := 0
  showSymmetryElement : Bool := false

/-- The parameter record handed to the `DrawingElement` constructor and
produced by `toJSON` (see spec section 6); optional fields may be absent
in legacy records. -/
structure Params where
  shape : ℕ := Shapes.NONE
  color : String := ""
  line : LineStyle := {}
  dash : DashStyle := {}
  fill : Bool := false
  fillRule : Option ℕ := none
  eraser : Bool := false
  transformations : Option (List Transfo) := none
  text : String := ""
  lineIndex : Option ℕ := none
  textRightAligned : Bool := false
  font : Option Font := none
  points : List (ℝ × ℝ) := []
  transform : Option Legacy := none

/-! ### Construction (`_init`, elements.js lines 66-94) and `toJSON`
(lines 97-113) -/

/-- The legacy-rotation intake of `_init`: a legacy `transform` with a
`center` and a nonzero total angle pushes a Rotation record (the JS reads
`angle` and `startAngle` with `|| 0`). -/
def legacyRotationList (p : Params) : List Transfo :=
  match p.transform with
  | none => []
  | some tr =>
    if tr.center.isSome ∧ tr.angle.getD 0 + tr.startAngle.getD 0 ≠ 0 then
      [{ ttype := Transformations.ROTATION, angle := tr.angle.getD 0 + tr.startAngle.getD 0 }]
    else []

/-- The legacy-ellipse intake of `_init`: an Ellipse with a truthy legacy
ratio different from 1 and at least two points gets a synthesized third
point producing that radius ratio.  An absent ratio reads as `0` (falsy),
so presence and nonzeroness collapse into one test. -/
def legacyEllipsePoint (p : Params) : List (ℝ × ℝ) :=
  match p.transform with
  | none => []
  | some tr =>
    if p.shape = Shapes.ELLIPSE ∧ tr.ratioV.getD 0 ≠ 0 ∧ tr.ratioV.getD 0 ≠ 1 ∧
        2 ≤ p.points.length then
      [(tr.ratioV.getD 0 * ((p.points.getD 1 (0, 0)).1 - (p.points.getD 0 (0, 0)).1) +
          (p.points.getD 0 (0, 0)).1,
        tr.ratioV.getD 0 * ((p.points.getD 1 (0, 0)).2 - (p.points.getD 0 (0, 0)).2) +
          (p.points.getD 0 (0, 0)).2)]
    else []

/-- The legacy font-weight remap of `_init` (0 becomes 400, 1 becomes 700),
applied only to Text elements with a font. -/
def fontWeightFix (f : Font) : Font :=
  if f.weight = 0 then { f with weight := 400 }
  else if f.weight = 1 then { f with weight := 700 }
  else f

/-- `_init(params)`, the `DrawingElement` constructor: copy all parameter
fields, default an absent `fillRule` to `Cairo.FillRule.WINDING` (= 0) and
absent `transformations` to `[]`, remap legacy font weights, translate a
legacy `transform` field into a Rotation record and (for ratio'd Ellipses)
a synthesized third point, then drop the legacy field. -/
def elementInit (p : Params) : Element :=
  { shape := p.shape, color := p.color, line := p.line, dash := p.dash, fill := p.fill,
    fillRule := p.fillRule.getD 0,
    eraser := p.eraser,
    transformations := p.transformations.getD [] ++ legacyRotationList p,
    text := p.text, lineIndex := p.lineIndex, textRightAligned := p.textRightAligned,
    font := if p.shape = Shapes.TEXT then p.font.map fontWeightFix else p.font,
    points := p.points ++ legacyEllipsePoint p }

/-- `Math.round(x)` on a real argument (round half towards positive
infinity, exactly Mathlib's `round`). -/
def jsRound (x : ℝ) : ℝ := ((round x : ℤ) : ℝ)

/-- The per-point coordinate rounding of `toJSON`:
`[Math.round(p[0]*100)/100, Math.round(p[1]*100)/100]`. -/
def roundPoint (p : ℝ × ℝ) : ℝ × ℝ := (jsRound (p.1 * 100) / 100, jsRound (p.2 * 100) / 100)

/-- `toJSON()`: the persisted record of an element. -/
def Element.toJSON (e : Element) : Params :=
  { shape := e.shape, color := e.color, line := e.line, dash := e.dash, fill := e.fill,
    fillRule := some e.fillRule, eraser := e.eraser,
    transformations := some e.transformations, text := e.text, lineIndex := e.lineIndex,
    textRightAligned := e.textRightAligned, font := e.font,
    points := e.points.map roundPoint, transform := none }

/-! ### Rotation centers (elements.js lines 594-642) -/

/-- The `lastTransformation` getter (`null` on an empty stack). -/
def Element.lastTransformation (e : Element) : Option Transfo := e.transformations.getLast?

/-- `_getLineOffset()`. -/
def Element.getLineOffset (e : Element) : ℝ :=
  ((e.lineIndex.getD 0 : ℕ) : ℝ) * |(e.points.getD 1 (0, 0)).2 - (e.points.getD 0 (0, 0)).2|

/-- `_getOriginalCenter()` without its `_originalCenter` cache. -/
def Element.originalCenter (e : Element) : ℝ × ℝ :=
  let points := e.points
  if e.shape = Shapes.ELLIPSE then points.getD 0 (0, 0)
  else if e.shape = Shapes.LINE ∧ points.length = 4 then
    getCurveCenter (points.getD 0 (0, 0)) (points.getD 1 (0, 0)) (points.getD 2 (0, 0))
      (points.getD 3 (0, 0))
  else if e.shape = Shapes.LINE ∧ points.length = 3 then
    getCurveCenter (points.getD 0 (0, 0)) (points.getD 0 (0, 0)) (points.getD 1 (0, 0))
      (points.getD 2 (0, 0))
  else if e.shape = Shapes.TEXT ∧ e.textWidth ≠ 0 then
    ((points.getD 1 (0, 0)).1, max (points.getD 0 (0, 0)).2 (points.getD 1 (0, 0)).2 -
      e.getLineOffset)
  else if 3 ≤ points.length then (getCentroid points).2
  else getNaiveCenter points

/-- The matrix `_getTransformedCenter` folds over the transformations
strictly before the given record, in reverse list order: Translations and
the mirror composites of Reflections/Inversions move the center; Rotations
and Scales/Stretches pivot about it and contribute nothing. -/
def centerMatrix (ts : List Transfo) : Mat :=
  ts.reverse.foldl
    (fun m t =>
      if t.ttype = Transformations.TRANSLATION then m.translate t.slideX t.slideY
      else if t.ttype = Transformations.ROTATION then m
      else if t.ttype = Transformations.SCALE_PRESERVE ∨ t.ttype = Transformations.STRETCH then m
      else if t.ttype = Transformations.REFLECTION ∨ t.ttype = Transformations.INVERSION then
        ((((m.translate t.slideX t.slideY).rotateDeg (-t.angle * RADIAN)).scale
            t.scaleX.toReal t.scaleY.toReal).rotateDeg (t.angle * RADIAN)).translate
          (-t.slideX) (-t.slideY)
      else m)
    Mat.identityMat

/-- `_getTransformedCenter(transformation)` for the record at index `i`,
without its per-record `elementTransformedCenter` cache: the original
center pushed through the matrix of the transformations before index `i`
(the source's `slice(0, indexOf(transformation))`). -/
def Element.transformedCenter (e : Element) (i : ℕ) : ℝ × ℝ :=
  let m := centerMatrix (e.transformations.take i)
  m.transformPoint e.originalCenter.1 e.originalCenter.2

/-! ### Point-acquisition builders (elements.js lines 411-498) -/

/-- `_smooth(i)`: replace point `i-1` by the midpoint of points `i-2` and
`i` (no-op for `i < 2`). -/
def smoothAt (ps : List (ℝ × ℝ)) (i : ℕ) : List (ℝ × ℝ) :=
  if i < 2 then ps
  else ps.set (i - 1)
    (((ps.getD (i - 2) (0, 0)).1 + (ps.getD i (0, 0)).1) / 2,
     ((ps.getD (i - 2) (0, 0)).2 + (ps.getD i (0, 0)).2) / 2)

/-- `smoothAll()`. -/
def Element.smoothAll (e : Element) : Element :=
  { e with points := (List.range e.points.length).foldl (fun ps i => smoothAt ps i) e.points }

/-- `startDrawing(startX, startY)`: push the first point; Polygon/Polyline
push a duplicate as the live vertex. -/
def Element.startDrawing (e : Element) (startX startY : ℝ) : Element :=
  let e1 := { e with points := e.points ++ [(startX, startY)] }
  if e.shape = Shapes.POLYGON ∨ e.shape = Shapes.POLYLINE then
    { e1 with points := e1.points ++ [(startX, startY)] }
  else e1

/-- JavaScript array index assignment `a[i] = v`: replaces in range,
appends at `i = a.length`.  (An index beyond the length would create a
hole; the source never does that on the modelled paths.) -/
def setIdx (ps : List (ℝ × ℝ)) (i : ℕ) (v : ℝ × ℝ) : List (ℝ × ℝ) :=
  if i < ps.length then ps.set i v else ps ++ [v]

/-- `addPoint()` (elements.js lines 417-431). -/
def Element.addPoint (e : Element) : Element :=
  if e.shape = Shapes.POLYGON ∨ e.shape = Shapes.POLYLINE then
    let lastPoint := e.points.getD (e.points.length - 1) (0, 0)
    let secondToLastPoint := e.points.getD (e.points.length - 2) (0, 0)
    if getNearness secondToLastPoint lastPoint MIN_DRAWING_SIZE then e
    else { e with points := e.points ++ [lastPoint] }
  else if e.shape = Shapes.LINE then
    if e.points.length = 2 then { e with points := setIdx e.points 2 (e.points.getD 1 (0, 0)) }
    else if e.points.length = 3 then
      let ps1 := setIdx e.points 3 (e.points.getD 2 (0, 0))
      { e with points := setIdx ps1 2 (e.points.getD 1 (0, 0)) }
    else e
  else e

/-- `updateDrawing(x, y, transform)` (elements.js lines 440-484).  The
`transform` parameter defaults to the element already having a
transformation: `transform = transform || this.transformations.length >= 1`. -/
def Element.updateDrawing (e : Element) (x y : ℝ) (transform : Bool) : Element :=
  let points := e.points
  if x = (points.getD (points.length - 1) (0, 0)).1 ∧
      y = (points.getD (points.length - 1) (0, 0)).2 then e
  else
    let tr : Prop := transform = true ∨ 1 ≤ e.transformations.length
    if e.shape = Shapes.NONE then
      let ps := points ++ [(x, y)]
      if tr then { e with points := smoothAt ps (ps.length - 1) } else { e with points := ps }
    else if (e.shape = Shapes.RECTANGLE ∨ e.shape = Shapes.POLYGON ∨
        e.shape = Shapes.POLYLINE) ∧ tr then
      if points.length < 2 then e
      else
        let center := e.originalCenter
        { e with transformations :=
            [{ ttype := Transformations.ROTATION,
               angle := getAngle center.1 center.2 (points.getD (points.length - 1) (0, 0)).1
                 (points.getD (points.length - 1) (0, 0)).2 x y }] ++ e.transformations.tail }
    else if e.shape = Shapes.ELLIPSE ∧ tr then
      if points.length < 2 then e
      else
        let e1 := { e with points := setIdx points 2 (x, y) }
        let center := e1.originalCenter
        { e1 with transformations :=
            [{ ttype := Transformations.ROTATION,
               angle := getAngle center.1 center.2 (center.1 + 1) center.2 x y }] ++
              e1.transformations.tail }
    else if e.shape = Shapes.POLYGON ∨ e.shape = Shapes.POLYLINE then
      { e with points := setIdx points (points.length - 1) (x, y) }
    else if e.shape = Shapes.TEXT ∧ tr then
      if points.length < 2 then e
      else
        let slideX := x - (points.getD 1 (0, 0)).1
        let slideY := y - (points.getD 1 (0, 0)).2
        { e with points :=
            setIdx (setIdx points 0 ((points.getD 0 (0, 0)).1 + slideX,
              (points.getD 0 (0, 0)).2 + slideY)) 1 (x, y) }
    else
      { e with points := setIdx points 1 (x, y) }

/-- `stopDrawing()` (elements.js lines 486-498): drop a last point closer
than `MIN_DRAWING_SIZE` to its predecessor (except for freehand), then
shift off a leading live Rotation whose angle stayed below
`MIN_ROTATION_ANGLE`. -/
def Element.stopDrawing (e : Element) : Element :=
  let e1 :=
    if e.shape ≠ Shapes.NONE ∧ 2 ≤ e.points.length then
      if getNearness (e.points.getD (e.points.length - 2) (0, 0))
          (e.points.getD (e.points.length - 1) (0, 0)) MIN_DRAWING_SIZE then
        { e with points := e.points.dropLast }
      else e
    else e
  match e1.transformations with
  | t0 :: rest =>
    if t0.ttype = Transformations.ROTATION ∧ |t0.angle| < MIN_ROTATION_ANGLE then
      { e1 with transformations := rest }
    else e1
  | [] => e1

/-! ### Transformation gestures (elements.js lines 500-591) -/

/-- `startTransformation(startX, startY, type)` (elements.js lines
500-517). -/
def Element.startTransformation (e : Element) (sX sY : ℝ) (ty : ℕ) : Element :=
  let e1 :=
    if ty = Transformations.TRANSLATION then
      { e with transformations := e.transformations ++
          [{ ttype := ty, startX := some sX, startY := some sY, slideX := 0, slideY := 0 }] }
    else if ty = Transformations.ROTATION then
      { e with transformations := e.transformations ++
          [{ ttype := ty, startX := some sX, startY := some sY, angle := 0 }] }
    else if ty = Transformations.SCALE_PRESERVE ∨ ty = Transformations.STRETCH then
      { e with transformations := e.transformations ++
          [{ ttype := ty, startX := some sX, startY := some sY,
             scaleX := .fin 1, scaleY := .fin 1, angle := 0 }] }
    else if ty = Transformations.REFLECTION then
      { e with transformations := e.transformations ++
          [{ ttype := ty, startX := some sX, startY := some sY,
             endX := some sX, endY := some sY,
             scaleX := .fin 1, scaleY := .fin 1, slideX := 0, slideY := 0, angle := 0 }] }
    else if ty = Transformations.INVERSION then
      { e with transformations := e.transformations ++
          [{ ttype := ty, startX := some sX, startY := some sY,
             endX := some sX, endY := some sY,
             scaleX := .fin (-1), scaleY := .fin (-1), slideX := sX, slideY := sY,
             angle := Real.pi + Real.arctan (sY / jsOr1 sX) }] }
    else e
  if ty = Transformations.REFLECTION ∨ ty = Transformations.INVERSION then
    { e1 with showSymmetryElement := true }
  else e1

/-- The per-type body of `updateTransformation(x, y)` (elements.js lines
519-570), acting on the last record `t`; `c` is the transformed center of
the element as of just before this record (the source computes it inside
the Rotation/ScalePreserve/Stretch branches via `_getTransformedCenter`). -/
def updatedRecord (c : ℝ × ℝ) (t : Transfo) (x y : ℝ) : Transfo :=
  if t.ttype = Transformations.TRANSLATION then
    { t with slideX := x - t.startX.getD 0, slideY := y - t.startY.getD 0 }
  else if t.ttype = Transformations.ROTATION then
    { t with angle := getAngle c.1 c.2 (t.startX.getD 0) (t.startY.getD 0) x y }
  else if t.ttype = Transformations.SCALE_PRESERVE then
    let scale := jsDivOr1 (jsHypot (x - c.1) (y - c.2))
      (jsHypot (t.startX.getD 0 - c.1) (t.startY.getD 0 - c.2))
    { t with scaleX := scale, scaleY := scale }
  else if t.ttype = Transformations.STRETCH then
    let startAngle := getAngle c.1 c.2 (c.1 + 1) c.2 (t.startX.getD 0) (t.startY.getD 0)
    let vertical := |Real.sin startAngle| ≥ Real.sin (Real.pi / 2 - STRETCH_TOLERANCE)
    let horizontal := |Real.cos startAngle| ≥ Real.cos STRETCH_TOLERANCE
    let scale := jsDivOr1 (jsHypot (x - c.1) (y - c.2))
      (jsHypot (t.startX.getD 0 - c.1) (t.startY.getD 0 - c.2))
    { t with scaleX := if vertical then .fin 1 else scale,
             scaleY := if vertical then scale else .fin 1,
             angle := if vertical ∨ horizontal then 0
               else getAngle c.1 c.2 (c.1 + 1) c.2 x y }
  else if t.ttype = Transformations.REFLECTION then
    let t1 : Transfo := { t with endX := some x, endY := some y }
    if getNearness (t.startX.getD 0, t.startY.getD 0) (x, y) MIN_REFLECTION_LINE_LENGTH then
      t1
    else if |y - t.startY.getD 0| ≤ REFLECTION_TOLERANCE ∧
        |x - t.startX.getD 0| > REFLECTION_TOLERANCE then
      { t1 with scaleX := .fin 1, scaleY := .fin (-1),
                slideX := 0, slideY := t.startY.getD 0, angle := Real.pi }
    else if |x - t.startX.getD 0| ≤ REFLECTION_TOLERANCE ∧
        |y - t.startY.getD 0| > REFLECTION_TOLERANCE then
      { t1 with scaleX := .fin (-1), scaleY := .fin 1,
                slideX := t.startX.getD 0, slideY := 0, angle := Real.pi }
    else if x ≠ t.startX.getD 0 then
      let tn := (y - t.startY.getD 0) / (x - t.startX.getD 0)
      { t1 with scaleX := .fin 1, scaleY := .fin (-1),
                slideX := 0, slideY := t.startY.getD 0 - t.startX.getD 0 * tn,
                angle := Real.pi + Real.arctan tn }
    else if y ≠ t.startY.getD 0 then
      let tn := (x - t.startX.getD 0) / (y - t.startY.getD 0)
      { t1 with scaleX := .fin (-1), scaleY := .fin 1,
                slideX := t.startX.getD 0 - t.startY.getD 0 * tn, slideY := 0,
                angle := Real.pi - Real.arctan tn }
    else t1
  else if t.ttype = Transformations.INVERSION then
    { t with endX := some x, endY := some y, scaleX := .fin (-1), scaleY := .fin (-1),
             slideX := x, slideY := y, angle := Real.pi + Real.arctan (y / jsOr1 x) }
  else t

/-- `updateTransformation(x, y)`: recompute the last record from the
current pointer position.  On an empty stack the source would dereference
`null`; the embedding is the identity there (no claim exercises it). -/
def Element.updateTransformation (e : Element) (x y : ℝ) : Element :=
  match e.lastTransformation with
  | none => e
  | some t =>
    { e with transformations := e.transformations.dropLast ++
        [updatedRecord (e.transformedCenter (e.transformations.length - 1)) t x y] }

/-- `stopTransformation()` (elements.js lines 572-591): clear the symmetry
display flag, then either discard a near-no-op record (near Reflection,
sub-pixel Translation, sub-threshold Rotation) or commit the record by
deleting its transient gesture fields. -/
def Element.stopTransformation (e : Element) : Element :=
  match e.lastTransformation with
  | none => e
  | some t =>
    let e1 := if t.ttype = Transformations.REFLECTION ∨ t.ttype = Transformations.INVERSION
      then { e with showSymmetryElement := false } else e
    if (t.ttype = Transformations.REFLECTION ∧
          getNearness (t.startX.getD 0, t.startY.getD 0) (t.endX.getD 0, t.endY.getD 0)
            MIN_REFLECTION_LINE_LENGTH) ∨
        (t.ttype = Transformations.TRANSLATION ∧
          jsHypot t.slideX t.slideY < MIN_TRANSLATION_DISTANCE) ∨
        (t.ttype = Transformations.ROTATION ∧ |t.angle| < MIN_ROTATION_ANGLE) then
      { e1 with transformations := e1.transformations.dropLast }
    else
      { e1 with transformations := e1.transformations.dropLast ++
          [{ t with startX := none, startY := none, endX := none, endY := none }] }

/-! ### Concrete elements used by the witnesses and counterexamples -/

/-- A rectangle with an in-progress Translation gesture. -/
def sampleTranslating : Element :=
  { shape := Shapes.RECTANGLE, points := [(0, 0), (4, 2)],
    transformations :=
      [{ ttype := Transformations.TRANSLATION, startX := some 1, startY := some 1 }] }

/-- An in-progress Translation record that has slid half a pixel. -/
def halfPixelRec : Transfo :=
  { ttype := Transformations.TRANSLATION, startX := some 0, startY := some 0,
    slideX := 1 / 2, slideY := 0 }

/-- A rectangle whose in-progress Translation has slid half a pixel. -/
def sampleHalfPixelSlide : Element :=
  { shape := Shapes.RECTANGLE, points := [(0, 0), (4, 2)], transformations := [halfPixelRec] }

/-- A freehand element that already carries a committed Translation. -/
def sampleFreehandTranslated : Element :=
  { shape := Shapes.NONE, points := [(0, 0)],
    transformations := [{ ttype := Transformations.TRANSLATION, slideX := 5, slideY := 5 }] }

/-- A rectangle that already carries a committed Rotation. -/
def sampleRotatedRect : Element :=
  { shape := Shapes.RECTANGLE, points := [(0, 0), (4, 2)],
    transformations := [{ ttype := Transformations.ROTATION, angle := 1 }] }

/-- An in-progress ScalePreserve record started at `(0, 0)`. -/
def scaleFromCenterRec : Transfo :=
  { ttype := Transformations.SCALE_PRESERVE, startX := some 0, startY := some 0 }

/-- An in-progress ScalePreserve record started at `(5, 0)`. -/
def scaleFromRimRec : Transfo :=
  { ttype := Transformations.SCALE_PRESERVE, startX := some 5, startY := some 0 }

/-- An ellipse whose ScalePreserve gesture started exactly at its center
`(0, 0)`. -/
def sampleScaleFromCenter : Element :=
  { shape := Shapes.ELLIPSE, points := [(0, 0), (5, 0)], transformations := [scaleFromCenterRec] }

/-- An ellipse whose ScalePreserve gesture started on its rim `(5, 0)`. -/
def sampleScaleFromRim : Element :=
  { shape := Shapes.ELLIPSE, points := [(0, 0), (5, 0)], transformations := [scaleFromRimRec] }

/-- A fresh element with every field at its default. -/
def sampleBase : Element := {}

/-- The record `startTransformation(0, 0, REFLECTION)` pushes. -/
def reflStartRec : Transfo :=
  { ttype := Transformations.REFLECTION, startX := some 0, startY := some 0,
    endX := some 0, endY := some 0, scaleX := .fin 1, scaleY := .fin 1,
    slideX := 0, slideY := 0, angle := 0 }

/-- A freehand element holding the first two pointer samples. -/
def sampleFreehandTwoPoints : Element :=
  { shape := Shapes.NONE, points := [(0, 0), (1, 1)] }

/-! ### Generic helper lemmas -/

theorem jsRound_close (x : ℝ) : |jsRound (x * 100) / 100 - x| ≤ 1 / 100 := by
  have h := abs_sub_round (x * 100)
  have h2 : jsRound (x * 100) / 100 - x = -((x * 100 - ((round (x * 100) : ℤ) : ℝ)) / 100) := by
    unfold jsRound; ring
  rw [h2, abs_neg, abs_div, show |(100 : ℝ)| = 100 by norm_num]
  rw [div_le_div_iff₀ (by norm_num) (by norm_num)]
  nlinarith [h]

/-! ### Claim theorems -/

/-- Claim C1: exporting an element with `toJSON` and rebuilding it through
the constructor reproduces exactly the same transformation list, and the
same points up to the 0.01 coordinate rounding of the export. -/
theorem elementInit_toJSON_roundtrip (e : Element) :
    (elementInit e.toJSON).transformations = e.transformations ∧
    List.Forall₂ (fun p q : ℝ × ℝ => |q.1 - p.1| ≤ 1 / 100 ∧ |q.2 - p.2| ≤ 1 / 100)
      e.points (elementInit e.toJSON).points := by
  have htr : (elementInit e.toJSON).transformations = e.transformations := by
    simp [elementInit, Element.toJSON, legacyRotationList]
  have hpts : (elementInit e.toJSON).points = e.points.map roundPoint := by
    simp [elementInit, Element.toJSON, legacyEllipsePoint]
  refine ⟨htr, ?_⟩
  rw [hpts]
  induction e.points with
  | nil => exact List.Forall₂.nil
  | cons p ps ih =>
    refine List.Forall₂.cons ⟨?_, ?_⟩ ih
    · simpa [roundPoint] using jsRound_close p.1
    · simpa [roundPoint] using jsRound_close p.2

/-- Claim C5: `getCurveCenter` is the cubic Bézier point at parameter
`t = 2/3` when `p0 = p1` (the 3-point line encoding) and at `t = 1/2`
otherwise. -/
theorem getCurveCenter_eq_bezier (p0 p1 p2 p3 : ℝ × ℝ) :
    (p0 = p1 → getCurveCenter p0 p1 p2 p3 = cubicBezierPoint p0 p1 p2 p3 (2 / 3)) ∧
    (p0 ≠ p1 → getCurveCenter p0 p1 p2 p3 = cubicBezierPoint p0 p1 p2 p3 (1 / 2)) := by
  constructor
  · intro h
    subst h
    unfold getCurveCenter cubicBezierPoint cubicBezierCoord
    rw [if_pos ⟨rfl, rfl⟩]
    exact Prod.ext (by ring) (by ring)
  · intro h
    unfold getCurveCenter cubicBezierPoint cubicBezierCoord
    rw [if_neg (fun hc => h (Prod.ext hc.1 hc.2))]
    exact Prod.ext (by ring) (by ring)

/-- Claim C5, witness: one 3-point-line instance (`p0 = p1`, parameter
`2/3`) and one generic instance (`p0 ≠ p1`, parameter `1/2`). -/
theorem getCurveCenter_eq_bezier_witness :
    getCurveCenter (0, 0) (0, 0) (3, 3) (6, 0) =
      cubicBezierPoint (0, 0) (0, 0) (3, 3) (6, 0) (2 / 3) ∧
    ((0, 0) : ℝ × ℝ) ≠ (1, 1) ∧
    getCurveCenter (0, 0) (1, 1) (2, 2) (3, 3) =
      cubicBezierPoint (0, 0) (1, 1) (2, 2) (3, 3) (1 / 2) := by
  have hne : ((0, 0) : ℝ × ℝ) ≠ (1, 1) := by
    simp [Prod.ext_iff]
  exact ⟨(getCurveCenter_eq_bezier (0, 0) (0, 0) (3, 3) (6, 0)).1 rfl, hne,
    (getCurveCenter_eq_bezier (0, 0) (1, 1) (2, 2) (3, 3)).2 hne⟩

/-- Claim C8: for a target point equal to the reference point `A ≠ O`, the
clamped-cosine computation of `getAngle` returns exactly `0`. -/
theorem getAngle_same_point_zero (xO yO xA yA : ℝ) (h : (xA, yA) ≠ (xO, yO)) :
    getAngle xO yO xA yA xA yA = 0 := by
  have h' : ¬(xA = xO ∧ yA = yO) := by
    simpa [Prod.ext_iff] using h
  have hs : 0 < (xA - xO) ^ 2 + (yA - yO) ^ 2 := by
    by_cases hx : xA = xO
    · have hy : yA ≠ yO := fun hy => h' ⟨hx, hy⟩
      have h2 : yA - yO ≠ 0 := sub_ne_zero.mpr hy
      have h3 : 0 < (yA - yO) ^ 2 := by positivity
      nlinarith [sq_nonneg (xA - xO)]
    · have h2 : xA - xO ≠ 0 := sub_ne_zero.mpr hx
      have h3 : 0 < (xA - xO) ^ 2 := by positivity
      nlinarith [sq_nonneg (yA - yO)]
  have hhyp : jsHypot (xA - xO) (yA - yO) * jsHypot (xA - xO) (yA - yO) =
      (xA - xO) ^ 2 + (yA - yO) ^ 2 := Real.mul_self_sqrt hs.le
  have hcos : ((xA - xO) * (xA - xO) + (yA - yO) * (yA - yO)) /
      (jsHypot (xA - xO) (yA - yO) * jsHypot (xA - xO) (yA - yO)) = 1 := by
    rw [hhyp, show (xA - xO) * (xA - xO) + (yA - yO) * (yA - yO) =
      (xA - xO) ^ 2 + (yA - yO) ^ 2 by ring]
    exact div_self hs.ne'
  unfold getAngle
  simp only [hcos]
  rw [show min (max (-1 : ℝ) 1) 1 = 1 by norm_num, Real.arccos_one]
  by_cases hx : xA = xO
  · simp [hx]
  · have hb : (yA - yO) / (xA - xO) * xA + (yA - (yA - yO) / (xA - xO) * xA) = yA := by ring
    simp [hx, hb]

/-- Claim C8, witness: `O = (0,0)`, `A = (1,0)`. -/
theorem getAngle_same_point_zero_witness :
    ((1, 0) : ℝ × ℝ) ≠ (0, 0) ∧ getAngle 0 0 1 0 1 0 = 0 := by
  have h : ((1, 0) : ℝ × ℝ) ≠ (0, 0) := by simp [Prod.ext_iff]
  exact ⟨h, getAngle_same_point_zero 0 0 1 0 h⟩

/-- Claim C10: `getCentroid` hands the point array back to its caller
unchanged — the temporarily pushed closing point is popped again on both
the degenerate-area path and the normal path. -/
theorem getCentroid_restores_points (pts : List (ℝ × ℝ)) (_h : pts ≠ []) :
    (getCentroid pts).1 = pts := by
  simp only [getCentroid]
  split <;> simp

/-- Claim C10, witness: a concrete triangle. -/
theorem getCentroid_restores_points_witness :
    ([(0, 0), (1, 0), (0, 1)] : List (ℝ × ℝ)) ≠ [] ∧
    (getCentroid [(0, 0), (1, 0), (0, 1)]).1 = [(0, 0), (1, 0), (0, 1)] := by
  have h : ([(0, 0), (1, 0), (0, 1)] : List (ℝ × ℝ)) ≠ [] := by simp
  exact ⟨h, getCentroid_restores_points _ h⟩

/-- Reduction of `updateDrawing` for a freehand element in transform mode:
append the sample and smooth at the new index. -/
theorem updateDrawing_none_case (e : Element) (x y : ℝ)
    (hs : e.shape = Shapes.NONE)
    (hlast : ¬(x = (e.points.getD (e.points.length - 1) (0, 0)).1 ∧
      y = (e.points.getD (e.points.length - 1) (0, 0)).2)) :
    e.updateDrawing x y true =
      { e with points := smoothAt (e.points ++ [(x, y)]) ((e.points ++ [(x, y)]).length - 1) } := by
  unfold Element.updateDrawing
  rw [if_neg hlast]
  simp [hs]

/-- Claim C9: with smoothing enabled, appending a freehand sample at index
`n ≥ 2` rewrites the point at index `n-1` to the midpoint of the points at
indices `n-2` and `n`, leaving all other points unchanged. -/
theorem updateDrawing_freehand_smooths (e : Element) (x y : ℝ) (n : ℕ)
    (hs : e.shape = Shapes.NONE) (hn : e.points.length = n) (h2 : 2 ≤ n)
    (hlast : ¬(x = (e.points.getD (e.points.length - 1) (0, 0)).1 ∧
      y = (e.points.getD (e.points.length - 1) (0, 0)).2)) :
    (e.updateDrawing x y true).points =
      e.points.set (n - 1)
        (((e.points.getD (n - 2) (0, 0)).1 + x) / 2,
         ((e.points.getD (n - 2) (0, 0)).2 + y) / 2) ++ [(x, y)] := by
  have hgd2 : (e.points ++ [(x, y)]).getD (n - 2) (0, 0) = e.points.getD (n - 2) (0, 0) :=
    List.getD_append _ _ _ _ (by omega)
  have hgdn : (e.points ++ [(x, y)]).getD n (0, 0) = (x, y) := by
    rw [List.getD_append_right _ _ _ _ (by omega)]
    simp [hn]
  rw [updateDrawing_none_case e x y hs hlast]
  have hlen : (e.points ++ [(x, y)]).length - 1 = n := by simp [hn]
  simp only [hlen]
  unfold smoothAt
  rw [if_neg (by omega : ¬n < 2), hgd2, hgdn,
    List.set_append_left _ _ (by omega : n - 1 < e.points.length)]

/-- Claim C9, witness: appending `(0,0)`, `(1,1)`, `(2,0)` in order leaves
`[(0,0), (1,0), (2,0)]` — index 1 is rewritten to the midpoint `(1, 0)`. -/
theorem updateDrawing_freehand_smooths_witness :
    sampleFreehandTwoPoints.shape = Shapes.NONE ∧
    sampleFreehandTwoPoints.points.length = 2 ∧
    (sampleFreehandTwoPoints.updateDrawing 2 0 true).points = [(0, 0), (1, 0), (2, 0)] := by
  have hs : sampleFreehandTwoPoints.shape = Shapes.NONE := rfl
  have hn : sampleFreehandTwoPoints.points.length = 2 := rfl
  have hlast : ¬((2 : ℝ) = (sampleFreehandTwoPoints.points.getD
      (sampleFreehandTwoPoints.points.length - 1) (0, 0)).1 ∧
      (0 : ℝ) = (sampleFreehandTwoPoints.points.getD
      (sampleFreehandTwoPoints.points.length - 1) (0, 0)).2) := by
    simp [sampleFreehandTwoPoints]
  refine ⟨hs, hn, ?_⟩
  rw [updateDrawing_freehand_smooths sampleFreehandTwoPoints 2 0 2 hs hn le_rfl hlast]
  norm_num [sampleFreehandTwoPoints]

/-- Claim C4, counterexample: the freehand branch of `updateDrawing`
appends a point even though the element already carries a transformation,
so the builders do mutate `points` once a transformation exists. -/
theorem updateDrawing_mutates_points_cex :
    sampleFreehandTranslated.transformations ≠ [] ∧
    (sampleFreehandTranslated.updateDrawing 1 1 false).points ≠
      sampleFreehandTranslated.points := by
  constructor
  · simp [sampleFreehandTranslated]
  · have hs : sampleFreehandTranslated.shape = Shapes.NONE := rfl
    have hlast : ¬((1 : ℝ) = (sampleFreehandTranslated.points.getD
        (sampleFreehandTranslated.points.length - 1) (0, 0)).1 ∧
        (1 : ℝ) = (sampleFreehandTranslated.points.getD
        (sampleFreehandTranslated.points.length - 1) (0, 0)).2) := by
      simp [sampleFreehandTranslated]
    have h1 : sampleFreehandTranslated.updateDrawing 1 1 false =
        { sampleFreehandTranslated with
          points := smoothAt (sampleFreehandTranslated.points ++ [(1, 1)])
            ((sampleFreehandTranslated.points ++ [(1, 1)]).length - 1) } := by
      unfold Element.updateDrawing
      rw [if_neg hlast]
      simp [hs, sampleFreehandTranslated]
    rw [h1]
    simp [sampleFreehandTranslated, smoothAt]

/-- Claim C4 (amended): for Rectangle, Polygon and Polyline elements that
already carry a transformation, `updateDrawing` never mutates `points`
(the drag drives the live Rotation record instead); the freehand, Ellipse,
Line and Text branches and the other builders can still mutate points. -/
theorem updateDrawing_preserves_points_rotating (e : Element) (x y : ℝ) (tf : Bool)
    (h1 : e.shape = Shapes.RECTANGLE ∨ e.shape = Shapes.POLYGON ∨ e.shape = Shapes.POLYLINE)
    (h2 : e.transformations ≠ []) :
    (e.updateDrawing x y tf).points = e.points := by
  have hlen : 1 ≤ e.transformations.length := by
    cases h : e.transformations with
    | nil => exact absurd h h2
    | cons a l => simp [h]
  have hne : e.shape ≠ Shapes.NONE := by
    rcases h1 with h | h | h <;> simp [h, Shapes.RECTANGLE, Shapes.POLYGON, Shapes.POLYLINE,
      Shapes.NONE]
  unfold Element.updateDrawing
  dsimp only
  split
  · rfl
  · rw [if_pos ⟨h1, Or.inr hlen⟩]
    split
    · rfl
    · rfl

/-- Claim C4 (amended), witness: a rectangle with a committed Rotation. -/
theorem updateDrawing_preserves_points_rotating_witness :
    (sampleRotatedRect.shape = Shapes.RECTANGLE ∨ sampleRotatedRect.shape = Shapes.POLYGON ∨
      sampleRotatedRect.shape = Shapes.POLYLINE) ∧
    sampleRotatedRect.transformations ≠ [] ∧
    (sampleRotatedRect.updateDrawing 7 9 false).points = sampleRotatedRect.points := by
  have h1 : sampleRotatedRect.shape = Shapes.RECTANGLE ∨
      sampleRotatedRect.shape = Shapes.POLYGON ∨
      sampleRotatedRect.shape = Shapes.POLYLINE := Or.inl rfl
  have h2 : sampleRotatedRect.transformations ≠ [] := by simp [sampleRotatedRect]
  exact ⟨h1, h2, updateDrawing_preserves_points_rotating _ 7 9 false h1 h2⟩

theorem updatedRecord_idem (c : ℝ × ℝ) (t : Transfo) (x y : ℝ) :
    updatedRecord c (updatedRecord c t x y) x y = updatedRecord c t x y := by
  by_cases h0 : t.ttype = Transformations.TRANSLATION
  · simp [updatedRecord, h0, Transformations.TRANSLATION, Transformations.ROTATION,
      Transformations.SCALE_PRESERVE, Transformations.STRETCH, Transformations.REFLECTION,
      Transformations.INVERSION]
  by_cases h1 : t.ttype = Transformations.ROTATION
  · simp [updatedRecord, h0, h1, Transformations.TRANSLATION, Transformations.ROTATION,
      Transformations.SCALE_PRESERVE, Transformations.STRETCH, Transformations.REFLECTION,
      Transformations.INVERSION]
  by_cases h2 : t.ttype = Transformations.SCALE_PRESERVE
  · simp [updatedRecord, h0, h1, h2, Transformations.TRANSLATION, Transformations.ROTATION,
      Transformations.SCALE_PRESERVE, Transformations.STRETCH, Transformations.REFLECTION,
      Transformations.INVERSION]
  by_cases h3 : t.ttype = Transformations.STRETCH
  · simp [updatedRecord, h0, h1, h2, h3, Transformations.TRANSLATION, Transformations.ROTATION,
      Transformations.SCALE_PRESERVE, Transformations.STRETCH, Transformations.REFLECTION,
      Transformations.INVERSION]
  by_cases h4 : t.ttype = Transformations.REFLECTION
  · by_cases hnear : getNearness (t.startX.getD 0, t.startY.getD 0) (x, y)
        MIN_REFLECTION_LINE_LENGTH
    · simp [updatedRecord, h0, h1, h2, h3, h4, hnear, Transformations.TRANSLATION,
        Transformations.ROTATION, Transformations.SCALE_PRESERVE, Transformations.STRETCH,
        Transformations.REFLECTION, Transformations.INVERSION]
    by_cases hH : |y - t.startY.getD 0| ≤ REFLECTION_TOLERANCE ∧
        |x - t.startX.getD 0| > REFLECTION_TOLERANCE
    · simp [updatedRecord, h0, h1, h2, h3, h4, hnear, hH, Transformations.TRANSLATION,
        Transformations.ROTATION, Transformations.SCALE_PRESERVE, Transformations.STRETCH,
        Transformations.REFLECTION, Transformations.INVERSION]
    by_cases hV : |x - t.startX.getD 0| ≤ REFLECTION_TOLERANCE ∧
        |y - t.startY.getD 0| > REFLECTION_TOLERANCE
    · simp [updatedRecord, h0, h1, h2, h3, h4, hnear, hH, hV, Transformations.TRANSLATION,
        Transformations.ROTATION, Transformations.SCALE_PRESERVE, Transformations.STRETCH,
        Transformations.REFLECTION, Transformations.INVERSION]
    by_cases hx : x ≠ t.startX.getD 0
    · simp [updatedRecord, h0, h1, h2, h3, h4, hnear, hH, hV, hx, Transformations.TRANSLATION,
        Transformations.ROTATION, Transformations.SCALE_PRESERVE, Transformations.STRETCH,
        Transformations.REFLECTION, Transformations.INVERSION]
    by_cases hy : y ≠ t.startY.getD 0
    · simp [updatedRecord, h0, h1, h2, h3, h4, hnear, hH, hV, hx, hy,
        Transformations.TRANSLATION, Transformations.ROTATION, Transformations.SCALE_PRESERVE,
        Transformations.STRETCH, Transformations.REFLECTION, Transformations.INVERSION]
    · simp [updatedRecord, h0, h1, h2, h3, h4, hnear, hH, hV, hx, hy,
        Transformations.TRANSLATION, Transformations.ROTATION, Transformations.SCALE_PRESERVE,
        Transformations.STRETCH, Transformations.REFLECTION, Transformations.INVERSION]
  by_cases h5 : t.ttype = Transformations.INVERSION
  · simp [updatedRecord, h0, h1, h2, h3, h4, h5, Transformations.TRANSLATION,
      Transformations.ROTATION, Transformations.SCALE_PRESERVE, Transformations.STRETCH,
      Transformations.REFLECTION, Transformations.INVERSION]
  · simp [updatedRecord, h0, h1, h2, h3, h4, h5]

theorem jsHypot_nonneg (a b : ℝ) : 0 ≤ jsHypot a b := Real.sqrt_nonneg _

theorem jsHypot_eval (a : ℝ) (h : 0 ≤ a) : jsHypot a 0 = a := by
  unfold jsHypot
  rw [show a ^ 2 + 0 ^ 2 = a ^ 2 by ring, Real.sqrt_sq h]

/-- Reduction of `updateTransformation` on a non-empty stack: the last
record is replaced by its update, computed about the transformed center of
the stack prefix. -/
theorem updateTransformation_eq (e : Element) (ts : List Transfo) (t : Transfo) (x y : ℝ)
    (h : e.transformations = ts ++ [t]) :
    e.updateTransformation x y =
      { e with transformations := ts ++
          [updatedRecord (Mat.transformPoint (centerMatrix ts) e.originalCenter.1
            e.originalCenter.2) t x y] } := by
  have hTake : (ts ++ [t]).length - 1 = ts.length := by simp
  simp only [Element.updateTransformation, Element.lastTransformation,
    Element.transformedCenter, h, List.getLast?_concat, List.dropLast_concat, hTake,
    List.take_left]

theorem originalCenter_set_transformations (e : Element) (l : List Transfo) :
    ({ e with transformations := l } : Element).originalCenter = e.originalCenter := rfl

/-- Claim C2: on an element with an in-progress transformation record,
`updateTransformation` is idempotent — a second call with the same pointer
position leaves the element (in particular the last record's parameters)
unchanged, for all six transformation types. -/
theorem updateTransformation_idem (e : Element) (x y : ℝ) (h : e.transformations ≠ []) :
    (e.updateTransformation x y).updateTransformation x y = e.updateTransformation x y := by
  obtain ⟨ts, t, hts⟩ : ∃ ts t, e.transformations = ts ++ [t] :=
    ⟨e.transformations.dropLast, e.transformations.getLast h,
      (List.dropLast_append_getLast h).symm⟩
  rw [updateTransformation_eq e ts t x y hts]
  rw [updateTransformation_eq _ ts _ x y rfl]
  simp only [originalCenter_set_transformations]
  rw [updatedRecord_idem]

/-- Claim C2, witness: a rectangle with an in-progress Translation. -/
theorem updateTransformation_idem_witness :
    sampleTranslating.transformations ≠ [] ∧
    (sampleTranslating.updateTransformation 3 4).updateTransformation 3 4 =
      sampleTranslating.updateTransformation 3 4 := by
  have h : sampleTranslating.transformations ≠ [] := by simp [sampleTranslating]
  exact ⟨h, updateTransformation_idem _ 3 4 h⟩

/-- Claim C3: `stopTransformation` pops the in-progress last record exactly
when it is a Reflection whose start and end points are strictly closer
than `MIN_REFLECTION_LINE_LENGTH`, a Translation whose slide magnitude is
strictly below `MIN_TRANSLATION_DISTANCE`, or a Rotation whose absolute
angle is strictly below `MIN_ROTATION_ANGLE`; every other record —
including every ScalePreserve, Stretch and Inversion record — is committed
with its transient `startX`/`startY`/`endX`/`endY` fields removed. -/
theorem stopTransformation_discard_iff (e : Element) (ts : List Transfo) (t : Transfo)
    (h : e.transformations = ts ++ [t]) :
    ((e.stopTransformation).transformations = ts ↔
      (t.ttype = Transformations.REFLECTION ∧
        jsHypot (t.endX.getD 0 - t.startX.getD 0) (t.endY.getD 0 - t.startY.getD 0) <
          MIN_REFLECTION_LINE_LENGTH) ∨
      (t.ttype = Transformations.TRANSLATION ∧
        jsHypot t.slideX t.slideY < MIN_TRANSLATION_DISTANCE) ∨
      (t.ttype = Transformations.ROTATION ∧ |t.angle| < MIN_ROTATION_ANGLE)) ∧
    (¬((t.ttype = Transformations.REFLECTION ∧
        jsHypot (t.endX.getD 0 - t.startX.getD 0) (t.endY.getD 0 - t.startY.getD 0) <
          MIN_REFLECTION_LINE_LENGTH) ∨
      (t.ttype = Transformations.TRANSLATION ∧
        jsHypot t.slideX t.slideY < MIN_TRANSLATION_DISTANCE) ∨
      (t.ttype = Transformations.ROTATION ∧ |t.angle| < MIN_ROTATION_ANGLE)) →
      (e.stopTransformation).transformations =
        ts ++ [{ t with startX := none, startY := none, endX := none, endY := none }]) := by
  unfold Element.stopTransformation Element.lastTransformation
  rw [h, List.getLast?_concat]
  dsimp only [getNearness]
  split
  · rename_i hc
    refine ⟨?_, fun hn => absurd hc hn⟩
    split <;> simp_all [List.dropLast_concat]
  · rename_i hc
    refine ⟨⟨fun heq => ?_, fun hcl => absurd hcl hc⟩, fun _ => ?_⟩
    · exfalso
      split at heq <;>
        · simp only [h, List.dropLast_concat] at heq
          have hlen := congrArg List.length heq
          simp at hlen
    · split <;> simp [h, List.dropLast_concat]

/-- Claim C3, witness: a half-pixel Translation is in the discard region
(`hypot(0.5, 0) = 0.5 < 1`), and the theorem's characterization applies to
it. -/
theorem stopTransformation_discard_iff_witness :
    sampleHalfPixelSlide.transformations = [] ++ [halfPixelRec] ∧
    ((sampleHalfPixelSlide.stopTransformation.transformations = [] ↔
      (halfPixelRec.ttype = Transformations.REFLECTION ∧
        jsHypot (halfPixelRec.endX.getD 0 - halfPixelRec.startX.getD 0)
          (halfPixelRec.endY.getD 0 - halfPixelRec.startY.getD 0) <
          MIN_REFLECTION_LINE_LENGTH) ∨
      (halfPixelRec.ttype = Transformations.TRANSLATION ∧
        jsHypot halfPixelRec.slideX halfPixelRec.slideY < MIN_TRANSLATION_DISTANCE) ∨
      (halfPixelRec.ttype = Transformations.ROTATION ∧
        |halfPixelRec.angle| < MIN_ROTATION_ANGLE)) ∧
    (¬((halfPixelRec.ttype = Transformations.REFLECTION ∧
        jsHypot (halfPixelRec.endX.getD 0 - halfPixelRec.startX.getD 0)
          (halfPixelRec.endY.getD 0 - halfPixelRec.startY.getD 0) <
          MIN_REFLECTION_LINE_LENGTH) ∨
      (halfPixelRec.ttype = Transformations.TRANSLATION ∧
        jsHypot halfPixelRec.slideX halfPixelRec.slideY < MIN_TRANSLATION_DISTANCE) ∨
      (halfPixelRec.ttype = Transformations.ROTATION ∧
        |halfPixelRec.angle| < MIN_ROTATION_ANGLE)) →
      sampleHalfPixelSlide.stopTransformation.transformations =
        [] ++
          [{ halfPixelRec with startX := none, startY := none, endX := none, endY := none }])) :=
  ⟨rfl, stopTransformation_discard_iff sampleHalfPixelSlide [] halfPixelRec rfl⟩

/-- Claim C6 (amended): a ScalePreserve update always stores equal
`scaleX` and `scaleY`; the stored value is the distance ratio
`num / den` when both distances are nonzero, the default 1 when the
pointer distance `num` is zero (a zero quotient — and the `0/0` NaN — is
falsy, so the `|| 1` guard replaces it), but `+Infinity` when the gesture
started exactly at the center (`den = 0`) while the pointer is elsewhere:
a truthy `num / 0` survives the guard. -/
theorem updateTransformation_scalePreserve (e : Element) (ts : List Transfo) (t : Transfo)
    (x y : ℝ) (c : ℝ × ℝ) (num den : ℝ)
    (h : e.transformations = ts ++ [t])
    (hty : t.ttype = Transformations.SCALE_PRESERVE)
    (hc : c = e.transformedCenter (e.transformations.length - 1))
    (hnum : num = jsHypot (x - c.1) (y - c.2))
    (hden : den = jsHypot (t.startX.getD 0 - c.1) (t.startY.getD 0 - c.2)) :
    (e.updateTransformation x y).transformations =
      ts ++ [{ t with scaleX := jsDivOr1 num den, scaleY := jsDivOr1 num den }] ∧
    (num ≠ 0 ∧ den ≠ 0 → jsDivOr1 num den = JSNum.fin (num / den)) ∧
    (num = 0 → jsDivOr1 num den = JSNum.fin 1) ∧
    (den = 0 ∧ num ≠ 0 → jsDivOr1 num den = JSNum.inf) := by
  have hcen : e.transformedCenter (e.transformations.length - 1) =
      Mat.transformPoint (centerMatrix ts) e.originalCenter.1 e.originalCenter.2 := by
    unfold Element.transformedCenter
    rw [h]
    have hTake : (ts ++ [t]).length - 1 = ts.length := by simp
    rw [hTake, List.take_left]
  subst hnum
  subst hden
  subst hc
  rw [hcen]
  refine ⟨?_, ?_, ?_, ?_⟩
  · rw [updateTransformation_eq e ts t x y h]
    simp [updatedRecord, hty, Transformations.TRANSLATION, Transformations.ROTATION,
      Transformations.SCALE_PRESERVE]
  · rintro ⟨hn, hd⟩
    simp [jsDivOr1, hd, div_eq_zero_iff, hn]
  · intro hn
    simp [jsDivOr1, hn, zero_div]
  · rintro ⟨hd, hn⟩
    simp [jsDivOr1, hd, hn]

theorem sampleScaleFromCenter_center :
    Mat.transformPoint (centerMatrix []) sampleScaleFromCenter.originalCenter.1
      sampleScaleFromCenter.originalCenter.2 = (0, 0) := by
  simp [centerMatrix, Mat.identityMat, Mat.transformPoint, Element.originalCenter,
    sampleScaleFromCenter]

theorem sampleScaleFromRim_center :
    Mat.transformPoint (centerMatrix []) sampleScaleFromRim.originalCenter.1
      sampleScaleFromRim.originalCenter.2 = (0, 0) := by
  simp [centerMatrix, Mat.identityMat, Mat.transformPoint, Element.originalCenter,
    sampleScaleFromRim]

/-- Claim C6, counterexample: a ScalePreserve gesture that started exactly
at the transformed center (`distance(center, start) = 0`) and moved the
pointer to distance 3 stores `+Infinity`, not the claimed default 1: in
JavaScript `3 / 0 = Infinity` is truthy and survives the `|| 1` guard. -/
theorem scalePreserve_infinity_cex :
    Mat.transformPoint (centerMatrix []) sampleScaleFromCenter.originalCenter.1
      sampleScaleFromCenter.originalCenter.2 = (0, 0) ∧
    jsHypot ((0 : ℝ) - 0) ((0 : ℝ) - 0) = 0 ∧
    (sampleScaleFromCenter.updateTransformation 3 0).transformations =
      [{ ttype := Transformations.SCALE_PRESERVE, startX := some 0, startY := some 0,
         scaleX := JSNum.inf, scaleY := JSNum.inf }] ∧
    JSNum.inf ≠ JSNum.fin 1 := by
  have hnum : jsHypot ((3 : ℝ) - 0) ((0 : ℝ) - 0) = 3 := by
    rw [show (3 : ℝ) - 0 = 3 by norm_num, show (0 : ℝ) - 0 = 0 by norm_num]
    exact jsHypot_eval 3 (by norm_num)
  have hden : jsHypot ((0 : ℝ) - 0) ((0 : ℝ) - 0) = 0 := by
    rw [show (0 : ℝ) - 0 = 0 by norm_num]
    exact jsHypot_eval 0 le_rfl
  refine ⟨sampleScaleFromCenter_center, hden, ?_, by simp⟩
  rw [updateTransformation_eq sampleScaleFromCenter [] scaleFromCenterRec 3 0 rfl]
  simp only [sampleScaleFromCenter_center, List.nil_append]
  have hnum' : jsHypot (3 : ℝ) 0 = 3 := jsHypot_eval 3 (by norm_num)
  have hden' : jsHypot (0 : ℝ) 0 = 0 := jsHypot_eval 0 le_rfl
  norm_num [updatedRecord, scaleFromCenterRec, sampleScaleFromCenter_center, hnum', hden',
    jsDivOr1, Transformations.TRANSLATION, Transformations.ROTATION,
    Transformations.SCALE_PRESERVE]

/-- Claim C6 (amended), witness: a gesture started on the rim (`den = 5`)
with the pointer at distance 3 — the theorem applies with both distances
nonzero. -/
theorem updateTransformation_scalePreserve_witness :
    (sampleScaleFromRim.updateTransformation 3 0).transformations =
      [{ scaleFromRimRec with scaleX := jsDivOr1 3 5, scaleY := jsDivOr1 3 5 }] ∧
    jsDivOr1 3 5 = JSNum.fin (3 / 5) := by
  have hc : ((0 : ℝ), (0 : ℝ)) =
      sampleScaleFromRim.transformedCenter (sampleScaleFromRim.transformations.length - 1) := by
    unfold Element.transformedCenter
    exact sampleScaleFromRim_center.symm
  have hnum : (3 : ℝ) = jsHypot (3 - ((0 : ℝ), (0 : ℝ)).1) (0 - ((0 : ℝ), (0 : ℝ)).2) := by
    rw [show (3 : ℝ) - ((0 : ℝ), (0 : ℝ)).1 = 3 by norm_num,
      show (0 : ℝ) - ((0 : ℝ), (0 : ℝ)).2 = 0 by norm_num]
    exact (jsHypot_eval 3 (by norm_num)).symm
  have hden : (5 : ℝ) = jsHypot (scaleFromRimRec.startX.getD 0 - ((0 : ℝ), (0 : ℝ)).1)
      (scaleFromRimRec.startY.getD 0 - ((0 : ℝ), (0 : ℝ)).2) := by
    rw [show scaleFromRimRec.startX.getD 0 - ((0 : ℝ), (0 : ℝ)).1 = 5 by
        norm_num [scaleFromRimRec],
      show scaleFromRimRec.startY.getD 0 - ((0 : ℝ), (0 : ℝ)).2 = 0 by
        norm_num [scaleFromRimRec]]
    exact (jsHypot_eval 5 (by norm_num)).symm
  have h := updateTransformation_scalePreserve sampleScaleFromRim [] scaleFromRimRec 3 0
    ((0 : ℝ), (0 : ℝ)) 3 5 rfl rfl hc hnum hden
  refine ⟨by simpa using h.1, ?_⟩
  exact h.2.1 ⟨by norm_num, by norm_num⟩

/-- Claim C7: a Reflection gesture started at `(0, 0)` and updated with
the pointer at `(10, 0)` is not within `MIN_REFLECTION_LINE_LENGTH` (the
drag distance is exactly 10), falls into the near-horizontal branch
(`|Δy| = 0 ≤ REFLECTION_TOLERANCE < |Δx| = 10`), and stores
`scaleX = 1`, `scaleY = -1`, `slideX = 0`, `slideY = 0`, `angle = π`. -/
theorem reflection_horizontal_gesture :
    ((sampleBase.startTransformation 0 0 Transformations.REFLECTION).updateTransformation
        10 0).transformations =
      [{ ttype := Transformations.REFLECTION, startX := some 0, startY := some 0,
         endX := some 10, endY := some 0, slideX := 0, slideY := 0, angle := Real.pi,
         scaleX := JSNum.fin 1, scaleY := JSNum.fin (-1) }] := by
  have hstart : sampleBase.startTransformation 0 0 Transformations.REFLECTION =
      { sampleBase with transformations := [reflStartRec], showSymmetryElement := true } := by
    norm_num [Element.startTransformation, sampleBase, reflStartRec,
      Transformations.TRANSLATION, Transformations.ROTATION, Transformations.SCALE_PRESERVE,
      Transformations.STRETCH, Transformations.REFLECTION, Transformations.INVERSION]
  rw [hstart, updateTransformation_eq _ [] reflStartRec 10 0 rfl]
  have h10 : jsHypot (10 : ℝ) 0 = 10 := jsHypot_eval 10 (by norm_num)
  norm_num [updatedRecord, reflStartRec, getNearness, h10, MIN_REFLECTION_LINE_LENGTH,
    REFLECTION_TOLERANCE, Transformations.TRANSLATION, Transformations.ROTATION,
    Transformations.SCALE_PRESERVE, Transformations.STRETCH, Transformations.REFLECTION,
    Transformations.INVERSION]
